import Mathlib

/-!
Shallow embedding of the Mullvad TAP-adapter discovery and removal core
(`context.cpp`, anonymous-namespace helpers plus the `Context` member
functions) and of the NSIS plugin operation layer (`driverlogic.cpp`).

The OS device database is modelled as explicit data: each enumerated device
carries the outcomes the Windows setup API would report for the queries the
code performs on it, and a device list carries the `GetLastError` code with
which `SetupDiEnumDeviceInfo` finally fails (the code `ERROR_NO_MORE_ITEMS`
is the normal terminator).  Thrown `std::exception`s become `Except` errors.
-/

/-- Windows error code `ERROR_INVALID_DATA`. -/
def ERROR_INVALID_DATA : Nat := 13

/-- Windows error code `ERROR_INSUFFICIENT_BUFFER`. -/
def ERROR_INSUFFICIENT_BUFFER : Nat := 122

/-- Windows error code `ERROR_NO_MORE_ITEMS`. -/
def ERROR_NO_MORE_ITEMS : Nat := 259

/-- Hardware id of the current-generation Mullvad TAP driver
(`TAP_HARDWARE_ID` in context.cpp). -/
def TAP_HARDWARE_ID : String := "tapmullvad0901"

/-- Hardware id of the legacy TAP driver
(`DEPRECATED_TAP_HARDWARE_ID` in context.cpp). -/
def DEPRECATED_TAP_HARDWARE_ID : String := "tap0901"

deriving instance DecidableEq for Except

/-- Outcome of the sizing call of the two-call pattern in
`GetDeviceRegistryStringProperty`: whether `SetupDiGetDeviceRegistryPropertyW`
returned TRUE, and the `GetLastError` value observed right after it. -/
structure SizingCall where
  success : Bool
  lastError : Nat
deriving DecidableEq

/-- Outcome of the fill call of the two-call pattern: whether the second
`SetupDiGetDeviceRegistryPropertyW` returned TRUE, the `GetLastError` value
if it did not, and the string read into the buffer if it did. -/
structure FillCall where
  success : Bool
  lastError : Nat
  value : String
deriving DecidableEq

/-- Embedding of `GetDeviceRegistryStringProperty` (context.cpp): run the
sizing call; if it failed with anything other than
`ERROR_INSUFFICIENT_BUFFER`, treat `ERROR_INVALID_DATA` as "property absent"
(`none`) and any other code as a thrown windows error; otherwise run the
fill call and throw its error code if it fails, else return the value. -/
def GetDeviceRegistryStringProperty (sizing : SizingCall) (fill : FillCall) :
    Except Nat (Option String) :=
  if sizing.success = false ∧ sizing.lastError ≠ ERROR_INSUFFICIENT_BUFFER then
    if sizing.lastError ≠ ERROR_INVALID_DATA then
      .error sizing.lastError
    else
      .ok none
  else
    if fill.success = false then
      .error fill.lastError
    else
      .ok (some fill.value)

/-- Embedding of `Context::NetworkAdapter` (context.h, as described by the
spec data model): `guid` is the NetCfgInstanceId configuration identity,
`name` the driver description, `alias` the connection display name,
`deviceInstanceId` the device-tree instance path. -/
structure NetworkAdapter where
  guid : String
  name : String
  alias_ : String
  deviceInstanceId : String
deriving DecidableEq

/-- One device of the network device class, carrying the outcomes of every
query the code may perform against it: the two registry-property calls for
`SPDRP_HARDWAREID`, the `NetCfgInstanceId` driver-key read, whether
`common::Guid::FromString` accepts that string, the driver-description
property, the NCI connection name, the device instance id, and the outcome
of `SetupDiRemoveDevice` (`removeOk` false means removal fails with
`GetLastError` = `removeErr`). -/
structure Device where
  hwSizing : SizingCall
  hwFill : FillCall
  netCfg : Except Nat String
  guidParseOk : Bool
  driverDesc : Except Nat String
  connectionName : Except Nat String
  devInstanceId : Except Nat String
  removeOk : Bool
  removeErr : Nat
deriving DecidableEq

/-- Result of `SetupDiGetClassDevs` + iterated `SetupDiEnumDeviceInfo`: the
devices yielded in order, and the `GetLastError` code of the enumeration
call that finally returned FALSE (`ERROR_NO_MORE_ITEMS` when the list was
exhausted normally). -/
structure DeviceList where
  devices : List Device
  endError : Nat
deriving DecidableEq

/-- Errors thrown by the core, following the spec's taxonomy: device-list
acquisition/iteration failures, property-query failures, the
more-than-one-current-adapter error (carrying the candidate records that
`LogAdapters` logged), the legacy-adapter-not-found error, and device
removal failure. -/
inductive DriverError where
  | enumError (code : Nat)
  | queryError (code : Nat)
  | ambiguousAdapter (logged : List NetworkAdapter)
  | adapterNotFound
  | removalError (code : Nat)
deriving DecidableEq

/-- Hardware-id query on a device, as `GetTapAdapters` performs it. -/
def hwIdOf (d : Device) : Except Nat (Option String) :=
  GetDeviceRegistryStringProperty d.hwSizing d.hwFill

/-- Record construction of `GetTapAdapters`'s try-block: all of
`GetNetCfgInstanceId`, `common::Guid::FromString`,
`GetDeviceStringProperty(DEVPKEY_Device_DriverDesc)`,
`nci.getConnectionName` and `GetDeviceInstanceId` must succeed, otherwise
the exception is caught, logged and the device is skipped (`none`). -/
def buildNetworkAdapter (d : Device) : Option NetworkAdapter :=
  match d.netCfg with
  | .error _ => none
  | .ok guid =>
    if d.guidParseOk = false then
      none
    else
      match d.driverDesc, d.connectionName, d.devInstanceId with
      | .ok name, .ok alias_, .ok instId =>
        some ⟨guid, name, alias_, instId⟩
      | _, _, _ => none

/-- Lexicographic strict order on code-point lists, modelling
`std::wstring`'s `operator<` on the wide characters. -/
def codeLt : List Nat → List Nat → Bool
  | [], [] => false
  | [], _ :: _ => true
  | _ :: _, [] => false
  | x :: xs, y :: ys =>
    if x < y then true
    else if y < x then false
    else codeLt xs ys

/-- Strict order of `NetworkAdapter`s by their identifying `guid` string. -/
def guidLt (a b : NetworkAdapter) : Bool :=
  codeLt (a.guid.data.map Char.toNat) (b.guid.data.map Char.toNat)

/-- Modelled from the spec: insertion into the `std::set<NetworkAdapter>`.
The comparator of `Context::NetworkAdapter` lives in context.h, which is not
part of the sources here; per the spec's data model the set is ordered and
deduplicated by the identifying string `guid`, so `emplace` is an ordered
insert that keeps the existing element when an equal `guid` is present. -/
def insertAdapter (a : NetworkAdapter) : List NetworkAdapter → List NetworkAdapter
  | [] => [a]
  | b :: rest =>
    if guidLt a b then
      a :: b :: rest
    else if guidLt b a then
      b :: insertAdapter a rest
    else
      b :: rest

/-- Embedding of the device loop of `GetTapAdapters`: for each device, the
hardware-id registry query runs outside the try-block (its exception aborts
the whole enumeration); devices whose hardware id is absent or differs from
the requested one are skipped; for matching devices the record is built and
inserted into the set, or the device is skipped when construction throws.
When the OS reports no further device, `ERROR_NO_MORE_ITEMS` terminates
normally and any other code is thrown. -/
def tapLoop (tapHardwareId : String) :
    List Device → Nat → List NetworkAdapter → Except DriverError (List NetworkAdapter)
  | [], endError, acc =>
    if endError = ERROR_NO_MORE_ITEMS then
      .ok acc
    else
      .error (.enumError endError)
  | d :: rest, endError, acc =>
    match hwIdOf d with
    | .error e => .error (.queryError e)
    | .ok hardwareId =>
      match hardwareId with
      | none => tapLoop tapHardwareId rest endError acc
      | some hw =>
        if hw ≠ tapHardwareId then
          tapLoop tapHardwareId rest endError acc
        else
          match buildNetworkAdapter d with
          | some a => tapLoop tapHardwareId rest endError (insertAdapter a acc)
          | none => tapLoop tapHardwareId rest endError acc

/-- Embedding of `GetTapAdapters` (context.cpp): acquire the class device
list (failure of `SetupDiGetClassDevs` throws), then run the device loop
starting from the empty set. -/
def GetTapAdapters (tapHardwareId : String) (classDevs : Except Nat DeviceList) :
    Except DriverError (List NetworkAdapter) :=
  match classDevs with
  | .error e => .error (.enumError e)
  | .ok dl => tapLoop tapHardwareId dl.devices dl.endError []

/-- Lower-casing of a single character as C-locale `towlower` performs it:
letters `A`..`Z` map 32 code points up, everything else is unchanged.  The
result is taken as a code point so that comparison stays kernel-computable. -/
def towlowerCode (c : Char) : Nat :=
  if 65 ≤ c.toNat ∧ c.toNat ≤ 90 then c.toNat + 32 else c.toNat

/-- Case-insensitive string comparison, modelling `_wcsicmp(a, b) == 0`:
equality of the per-character `towlower` images. -/
def ciEqual (a b : String) : Bool :=
  a.data.map towlowerCode == b.data.map towlowerCode

/-- Embedding of the `findByAlias` lambda of `Context::FindMullvadAdapter`:
first adapter in the set whose alias compares equal case-insensitively. -/
def findByAlias (adapters : List NetworkAdapter) (wanted : String) :
    Option NetworkAdapter :=
  adapters.find? (fun candidate => ciEqual candidate.alias_ wanted)

/-- Embedding of the `for (auto i = 0; i < 10; ++i)` probe of
`Context::FindMullvadAdapter`, searching aliases `Mullvad-i` upward; `fuel`
counts the remaining iterations. -/
def findSuffixedFrom (adapters : List NetworkAdapter) (i : Nat) :
    Nat → Option NetworkAdapter
  | 0 => none
  | fuel + 1 =>
    match findByAlias adapters ("Mullvad-" ++ toString i) with
    | some a => some a
    | none => findSuffixedFrom adapters (i + 1) fuel

/-- Embedding of `Context::FindMullvadAdapter` (context.cpp): empty input
yields no match; otherwise prefer the adapter aliased `Mullvad`
(case-insensitively), then probe `Mullvad-0` .. `Mullvad-9` in order. -/
def FindMullvadAdapter (tapAdapters : List NetworkAdapter) :
    Option NetworkAdapter :=
  if tapAdapters.isEmpty then
    none
  else
    match findByAlias tapAdapters "Mullvad" with
    | some a => some a
    | none => findSuffixedFrom tapAdapters 0 10

/-- Result of `Context::getAdapter`: either a found adapter, a thrown error,
or the undefined dereference `*added.begin()` performed on an empty set. -/
inductive GetAdapterOutcome where
  | found (a : NetworkAdapter)
  | failed (e : DriverError)
  | derefEmpty
deriving DecidableEq

/-- Embedding of `Context::getAdapter` (context.cpp): enumerate by the
current hardware id; more than one candidate logs all of them and throws;
otherwise the begin iterator of the set is dereferenced — on an empty set
that dereference is undefined behaviour, marked `derefEmpty`. -/
def getAdapter (classDevs : Except Nat DeviceList) : GetAdapterOutcome :=
  match GetTapAdapters TAP_HARDWARE_ID classDevs with
  | .error e => .failed e
  | .ok added =>
    if 1 < added.length then
      .failed (.ambiguousAdapter added)
    else
      match added with
      | [] => .derefEmpty
      | a :: _ => .found a

/-- Embedding of `Context::DeletionResult` (context.h, as used by
context.cpp and driverlogic.cpp). -/
inductive DeletionResult where
  | NO_REMAINING_TAP_ADAPTERS
  | SOME_REMAINING_TAP_ADAPTERS
deriving DecidableEq

/-- Embedding of the removal loop of `Context::DeleteOldMullvadAdapter`:
walk the re-enumerated device list; the hardware-id query and the
`GetNetCfgInstanceId` read throw on failure (no try-block here); a device
bearing the deprecated hardware id whose NetCfgInstanceId differs from the
matched guid only bumps `numRemainingAdapters`; one whose id matches is
removed, a failing `SetupDiRemoveDevice` throwing `removalError`.  Returns
the final count together with the devices actually removed. -/
def deleteLoop (mullvadGuid : String) :
    List Device → Nat → Nat → List Device →
    (Except DriverError Nat) × List Device
  | [], endError, numRemaining, removed =>
    if endError = ERROR_NO_MORE_ITEMS then
      (.ok numRemaining, removed)
    else
      (.error (.enumError endError), removed)
  | d :: rest, endError, numRemaining, removed =>
    match hwIdOf d with
    | .error e => (.error (.queryError e), removed)
    | .ok hardwareId =>
      if hardwareId = some DEPRECATED_TAP_HARDWARE_ID then
        match d.netCfg with
        | .error e => (.error (.queryError e), removed)
        | .ok guid =>
          if guid ≠ mullvadGuid then
            deleteLoop mullvadGuid rest endError (numRemaining + 1) removed
          else if d.removeOk then
            deleteLoop mullvadGuid rest endError numRemaining (removed ++ [d])
          else
            (.error (.removalError d.removeErr), removed)
      else
        deleteLoop mullvadGuid rest endError numRemaining removed

/-- Embedding of `Context::DeleteOldMullvadAdapter` (context.cpp): find the
legacy Mullvad adapter among the `tap0901` candidates (throwing
`adapterNotFound` when the matcher yields nothing), then re-enumerate the
class device list (`enum2`) and run the removal loop.  The second component
lists the devices removed from the system during the call. -/
def DeleteOldMullvadAdapter (enum1 enum2 : Except Nat DeviceList) :
    (Except DriverError DeletionResult) × List Device :=
  match GetTapAdapters DEPRECATED_TAP_HARDWARE_ID enum1 with
  | .error e => (.error e, [])
  | .ok tapAdapters =>
    match FindMullvadAdapter tapAdapters with
    | none => (.error .adapterNotFound, [])
    | some mullvadAdapter =>
      match enum2 with
      | .error e => (.error (.enumError e), [])
      | .ok dl =>
        match deleteLoop mullvadAdapter.guid dl.devices dl.endError 0 [] with
        | (.error e, removed) => (.error e, removed)
        | (.ok numRemaining, removed) =>
          (.ok (if numRemaining > 0 then
                  .SOME_REMAINING_TAP_ADAPTERS
                else
                  .NO_REMAINING_TAP_ADAPTERS), removed)

/-- Status codes pushed to the NSIS stack.  Modelled from the spec: the
numeric values live in error.h, which is not among the sources; only the
success/general-error distinction is observable here. -/
inductive NsisStatus where
  | SUCCESS
  | GENERAL_ERROR
deriving DecidableEq

/-- Message-and-status pair pushed by a plugin operation. -/
structure PluginOutput where
  message : String
  status : NsisStatus
deriving DecidableEq

/-- Human-readable text of a thrown error, as pushed by the catch blocks of
driverlogic.cpp.  The literal texts come from the `THROW_ERROR` sites in
context.cpp; windows-error texts are produced by libcommon (not among the
sources) and are abstracted as a code-bearing string. -/
def errorMessage : DriverError → String
  | .enumError code => "windows error " ++ toString code
  | .queryError code => "windows error " ++ toString code
  | .ambiguousAdapter _ => "Identified more TAP adapters than expected"
  | .adapterNotFound => "Mullvad TAP adapter not found"
  | .removalError code => "windows error " ++ toString code

/-- Embedding of the exported `IdentifyNewAdapter` (driverlogic.cpp): when
`g_context` is null (`hasContext = false`) it pushes an explanatory message
with `GENERAL_ERROR` and returns before any enumeration; otherwise it runs
`getAdapter` and pushes the adapter's alias on success or the exception
text on failure.  The second component records whether enumeration ran; the
first is `none` exactly on the undefined empty-set dereference. -/
def IdentifyNewAdapterOp (hasContext : Bool) (classDevs : Except Nat DeviceList) :
    (Option PluginOutput) × Bool :=
  if hasContext = false then
    (some ⟨"Initialize() function was not called or was not successful",
           .GENERAL_ERROR⟩, false)
  else
    match getAdapter classDevs with
    | .found a => (some ⟨a.alias_, .SUCCESS⟩, true)
    | .failed e => (some ⟨errorMessage e, .GENERAL_ERROR⟩, true)
    | .derefEmpty => (none, true)

/-- Status codes of the exported `RemoveOldMullvadTap`
(`RemoveOldMullvadTapStatus` in driverlogic.cpp). -/
inductive RemoveOldMullvadTapStatus where
  | GENERAL_ERROR
  | SUCCESS_NO_REMAINING_TAP_ADAPTERS
  | SUCCESS_SOME_REMAINING_TAP_ADAPTERS
deriving DecidableEq

/-- Embedding of the exported `RemoveOldMullvadTap` (driverlogic.cpp): it
never consults `g_context` and always runs the static
`Context::DeleteOldMullvadAdapter`, mapping its outcome to a status and the
exception text on failure.  The second component lists the devices removed
from the system during the call. -/
def RemoveOldMullvadTapOp (hasContext : Bool)
    (enum1 enum2 : Except Nat DeviceList) :
    (String × RemoveOldMullvadTapStatus) × List Device :=
  match DeleteOldMullvadAdapter enum1 enum2 with
  | (.ok .NO_REMAINING_TAP_ADAPTERS, removed) =>
    (("", .SUCCESS_NO_REMAINING_TAP_ADAPTERS), removed)
  | (.ok .SOME_REMAINING_TAP_ADAPTERS, removed) =>
    (("", .SUCCESS_SOME_REMAINING_TAP_ADAPTERS), removed)
  | (.error e, removed) =>
    ((errorMessage e, .GENERAL_ERROR), removed)

/-- Modelled from the spec: the adapter matcher as §4.3 words it — probe the
candidate list for, in order, the base alias `Mullvad` and then the
suffixed aliases `Mullvad-0` through `Mullvad-9`, each case-insensitively,
returning the first hit.  Used to compare against `FindMullvadAdapter`. -/
def firstAliasMatch (adapters : List NetworkAdapter) :
    List String → Option NetworkAdapter
  | [] => none
  | n :: ns =>
    match findByAlias adapters n with
    | some a => some a
    | none => firstAliasMatch adapters ns

/-- Modelled from the spec: the 11 candidate alias names of §4.3, in the
priority order the spec gives. -/
def probeAliases : List String :=
  ["Mullvad", "Mullvad-0", "Mullvad-1", "Mullvad-2", "Mullvad-3",
   "Mullvad-4", "Mullvad-5", "Mullvad-6", "Mullvad-7", "Mullvad-8",
   "Mullvad-9"]

/-- Modelled from the spec: `findProductAdapter` of §4.3. -/
def spec_findProductAdapter (candidates : List NetworkAdapter) :
    Option NetworkAdapter :=
  firstAliasMatch candidates probeAliases

/-- Names `Mullvad-i`, `Mullvad-(i+1)`, ... for `fuel` further indices —
the alias sequence the probe loop of `FindMullvadAdapter` walks. -/
def suffixAliases (i : Nat) : Nat → List String
  | 0 => []
  | fuel + 1 => ("Mullvad-" ++ toString i) :: suffixAliases (i + 1) fuel

/-- Concrete device fixture whose hardware-id property is present with value
`hw` (classic insufficient-buffer sizing path) and all record sub-queries
succeed. -/
def okDev (hw guid desc alias_ inst : String) : Device :=
  { hwSizing := ⟨false, ERROR_INSUFFICIENT_BUFFER⟩
    hwFill := ⟨true, 0, hw⟩
    netCfg := .ok guid
    guidParseOk := true
    driverDesc := .ok desc
    connectionName := .ok alias_
    devInstanceId := .ok inst
    removeOk := true
    removeErr := 0 }

/-- Concrete device fixture whose hardware-id property is absent
(sizing call fails with `ERROR_INVALID_DATA`). -/
def absentHwDev : Device :=
  { hwSizing := ⟨false, ERROR_INVALID_DATA⟩
    hwFill := ⟨true, 0, ""⟩
    netCfg := .ok "guid-absent"
    guidParseOk := true
    driverDesc := .ok "desc"
    connectionName := .ok "conn"
    devInstanceId := .ok "inst"
    removeOk := true
    removeErr := 0 }


/-- Device classification used to state `DeleteOldMullvadAdapter`'s removal
loop behaviour: a device bearing the deprecated hardware id whose
`NetCfgInstanceId` resolves and differs from the matched adapter's guid —
the loop counts it as a remaining legacy adapter. -/
def isRemainingLegacy (mullvadGuid : String) (d : Device) : Bool :=
  (hwIdOf d == .ok (some DEPRECATED_TAP_HARDWARE_ID)) &&
    (match d.netCfg with
     | .ok guid => guid != mullvadGuid
     | .error _ => false)

/-- Device classification: a device bearing the deprecated hardware id whose
`NetCfgInstanceId` resolves and equals the matched adapter's guid — the
removal loop issues `SetupDiRemoveDevice` on it. -/
def isTargetLegacy (mullvadGuid : String) (d : Device) : Bool :=
  (hwIdOf d == .ok (some DEPRECATED_TAP_HARDWARE_ID)) &&
    (match d.netCfg with
     | .ok guid => guid == mullvadGuid
     | .error _ => false)

/-- A device the removal loop traverses without throwing: its hardware-id
query succeeds, and when it bears the deprecated hardware id its
`NetCfgInstanceId` read succeeds too and, if it is the removal target, the
removal itself succeeds. -/
def cleanForDeletion (mullvadGuid : String) (d : Device) : Bool :=
  match hwIdOf d with
  | .error _ => false
  | .ok hw =>
    if hw = some DEPRECATED_TAP_HARDWARE_ID then
      match d.netCfg with
      | .error _ => false
      | .ok guid => if guid = mullvadGuid then d.removeOk else true
    else
      true

/-- Legacy target device fixture whose `SetupDiRemoveDevice` fails with
error code 5. -/
def badRemoveDev : Device :=
  { hwSizing := ⟨false, ERROR_INSUFFICIENT_BUFFER⟩
    hwFill := ⟨true, 0, "tap0901"⟩
    netCfg := .ok "gl"
    guidParseOk := true
    driverDesc := .ok "dsc"
    connectionName := .ok "Mullvad"
    devInstanceId := .ok "i1"
    removeOk := false
    removeErr := 5 }

/-- Device fixture matching the current hardware id whose record
construction fails (`GetNetCfgInstanceId` throws). -/
def badBuildDev : Device :=
  { hwSizing := ⟨false, ERROR_INSUFFICIENT_BUFFER⟩
    hwFill := ⟨true, 0, "tapmullvad0901"⟩
    netCfg := .error 2
    guidParseOk := true
    driverDesc := .ok "dsc"
    connectionName := .ok "conn"
    devInstanceId := .ok "inst"
    removeOk := true
    removeErr := 0 }

/-- C9: `readOptionalRegistryProperty` returns `none` (normal
absent-property result) when the sizing call fails with invalid data, fails
with a `DeviceQueryError` for any sizing-call failure other than buffer too
small or invalid data, and fails with a `DeviceQueryError` for any failure
of the subsequent fill call. -/
theorem registryProperty_error_policy (sizing : SizingCall) (fill : FillCall) :
    (sizing.success = false → sizing.lastError = ERROR_INVALID_DATA →
      GetDeviceRegistryStringProperty sizing fill = .ok none)
    ∧ (sizing.success = false → sizing.lastError ≠ ERROR_INSUFFICIENT_BUFFER →
        sizing.lastError ≠ ERROR_INVALID_DATA →
        GetDeviceRegistryStringProperty sizing fill = .error sizing.lastError)
    ∧ ((sizing.success = true ∨ sizing.lastError = ERROR_INSUFFICIENT_BUFFER) →
        fill.success = false →
        GetDeviceRegistryStringProperty sizing fill = .error fill.lastError) := by
  refine ⟨?_, ?_, ?_⟩
  · intro h1 h2
    simp [GetDeviceRegistryStringProperty, h1, h2, ERROR_INVALID_DATA,
      ERROR_INSUFFICIENT_BUFFER]
  · intro h1 h2 h3
    simp [GetDeviceRegistryStringProperty, h1, h2, h3]
  · intro h1 h2
    rcases h1 with h1 | h1 <;>
      simp [GetDeviceRegistryStringProperty, h1, h2]

/-- Witness for C9: the three branches at concrete call outcomes. -/
theorem registryProperty_error_policy_witness :
    GetDeviceRegistryStringProperty ⟨false, 13⟩ ⟨true, 0, "x"⟩ = .ok none
    ∧ GetDeviceRegistryStringProperty ⟨false, 6⟩ ⟨true, 0, "x"⟩ = .error 6
    ∧ GetDeviceRegistryStringProperty ⟨false, 122⟩ ⟨false, 7, ""⟩ = .error 7 :=
  ⟨(registryProperty_error_policy ⟨false, 13⟩ ⟨true, 0, "x"⟩).1 rfl rfl,
   (registryProperty_error_policy ⟨false, 6⟩ ⟨true, 0, "x"⟩).2.1 rfl
     (by decide) (by decide),
   (registryProperty_error_policy ⟨false, 122⟩ ⟨false, 7, ""⟩).2.2
     (Or.inr rfl) rfl⟩

/-- C10: of the exported operations, only `IdentifyNewAdapter` checks for a
prior successful `Initialize`: without a context it pushes the explanatory
message with `GENERAL_ERROR` and performs no enumeration, whereas
`RemoveOldMullvadTap` never consults the context — its result and the
devices it removes are identical whether or not `Initialize` ran. -/
theorem only_identify_checks_context :
    (∀ classDevs : Except Nat DeviceList,
      IdentifyNewAdapterOp false classDevs =
        (some ⟨"Initialize() function was not called or was not successful",
               .GENERAL_ERROR⟩, false))
    ∧ (∀ (hc hc' : Bool) (enum1 enum2 : Except Nat DeviceList),
        RemoveOldMullvadTapOp hc enum1 enum2 = RemoveOldMullvadTapOp hc' enum1 enum2)
    ∧ (∀ (hc : Bool) (enum1 enum2 : Except Nat DeviceList),
        (RemoveOldMullvadTapOp hc enum1 enum2).2 =
          (DeleteOldMullvadAdapter enum1 enum2).2) := by
  refine ⟨fun classDevs => rfl, fun hc hc' enum1 enum2 => rfl, ?_⟩
  intro hc enum1 enum2
  unfold RemoveOldMullvadTapOp
  rcases h : DeleteOldMullvadAdapter enum1 enum2 with ⟨r, removed⟩
  rcases r with e | dr
  · simp
  · rcases dr <;> simp

/-- C1: when enumeration by the current hardware id yields exactly one
adapter, `getAdapter` returns it unchanged; with two or more, it throws the
ambiguity error carrying every candidate's record (the details
`LogAdapters` logged). -/
theorem getAdapter_one_or_many (classDevs : Except Nat DeviceList)
    (added : List NetworkAdapter)
    (h : GetTapAdapters TAP_HARDWARE_ID classDevs = .ok added) :
    (∀ a, added = [a] → getAdapter classDevs = .found a)
    ∧ (2 ≤ added.length →
        getAdapter classDevs = .failed (.ambiguousAdapter added)) := by
  constructor
  · intro a ha
    subst ha
    simp [getAdapter, h]
  · intro h2
    have hlt : 1 < added.length := h2
    simp [getAdapter, h, hlt]

/-- Witness for C1: a single matching device is returned unchanged, and two
matching devices trigger the ambiguity failure with both candidates. -/
theorem getAdapter_one_or_many_witness :
    getAdapter (.ok ⟨[okDev "tapmullvad0901" "g1" "d1" "Mullvad" "i1"],
                     ERROR_NO_MORE_ITEMS⟩)
      = .found ⟨"g1", "d1", "Mullvad", "i1"⟩
    ∧ getAdapter (.ok ⟨[okDev "tapmullvad0901" "g1" "d1" "Mullvad" "i1",
                        okDev "tapmullvad0901" "g2" "d2" "Mullvad-1" "i2"],
                       ERROR_NO_MORE_ITEMS⟩)
      = .failed (.ambiguousAdapter
          [⟨"g1", "d1", "Mullvad", "i1"⟩, ⟨"g2", "d2", "Mullvad-1", "i2"⟩]) :=
  ⟨(getAdapter_one_or_many _ [⟨"g1", "d1", "Mullvad", "i1"⟩] (by decide)).1
     _ rfl,
   (getAdapter_one_or_many _
     [⟨"g1", "d1", "Mullvad", "i1"⟩, ⟨"g2", "d2", "Mullvad-1", "i2"⟩]
     (by decide)).2 (by decide)⟩

/-- C2: `getAdapter` hits the undefined dereference of the empty set's
begin iterator exactly when the enumeration produced zero adapters — the
final dereference is safe only under the precondition that at least one
current-generation adapter was enumerated. -/
theorem getAdapter_empty_deref (classDevs : Except Nat DeviceList)
    (added : List NetworkAdapter)
    (h : GetTapAdapters TAP_HARDWARE_ID classDevs = .ok added) :
    getAdapter classDevs = .derefEmpty ↔ added = [] := by
  cases added with
  | nil => simp [getAdapter, h]
  | cons a rest =>
    simp only [getAdapter, h]
    constructor
    · intro hc
      split at hc <;> simp at hc
    · intro hc
      simp at hc

/-- Witness for C2: zero enumerated adapters make `getAdapter` dereference
the empty result. -/
theorem getAdapter_empty_deref_witness :
    GetTapAdapters TAP_HARDWARE_ID (.ok ⟨[], ERROR_NO_MORE_ITEMS⟩) = .ok []
    ∧ getAdapter (.ok ⟨[], ERROR_NO_MORE_ITEMS⟩) = .derefEmpty :=
  ⟨by decide,
   (getAdapter_empty_deref (.ok ⟨[], ERROR_NO_MORE_ITEMS⟩) [] (by decide)).2 rfl⟩

/-- C5: `DeleteOldMullvadAdapter` fails with the not-found error whenever
the matcher yields no product adapter among the legacy candidates — in
particular whenever there are no legacy candidates at all — and in that
case no device removal is attempted (the removed-device list is empty). -/
theorem deleteOldAdapter_not_found (enum1 enum2 : Except Nat DeviceList)
    (cands : List NetworkAdapter)
    (h1 : GetTapAdapters DEPRECATED_TAP_HARDWARE_ID enum1 = .ok cands) :
    (FindMullvadAdapter cands = none →
      DeleteOldMullvadAdapter enum1 enum2 = (.error .adapterNotFound, []))
    ∧ (cands = [] →
      DeleteOldMullvadAdapter enum1 enum2 = (.error .adapterNotFound, [])) := by
  constructor
  · intro h2
    simp [DeleteOldMullvadAdapter, h1, h2]
  · intro h2
    subst h2
    simp [DeleteOldMullvadAdapter, h1, FindMullvadAdapter]

/-- Witness for C5: no legacy-hardware-id devices present. -/
theorem deleteOldAdapter_not_found_witness :
    GetTapAdapters DEPRECATED_TAP_HARDWARE_ID (.ok ⟨[], ERROR_NO_MORE_ITEMS⟩)
      = .ok []
    ∧ DeleteOldMullvadAdapter (.ok ⟨[], ERROR_NO_MORE_ITEMS⟩)
        (.ok ⟨[], ERROR_NO_MORE_ITEMS⟩) = (.error .adapterNotFound, []) :=
  ⟨by decide,
   (deleteOldAdapter_not_found (.ok ⟨[], ERROR_NO_MORE_ITEMS⟩)
     (.ok ⟨[], ERROR_NO_MORE_ITEMS⟩) [] (by decide)).2 rfl⟩

theorem mem_insertAdapter {x a : NetworkAdapter} :
    ∀ {l : List NetworkAdapter}, x ∈ insertAdapter a l → x = a ∨ x ∈ l := by
  intro l
  induction l with
  | nil =>
    intro h
    simpa [insertAdapter] using h
  | cons b rest ih =>
    intro h
    unfold insertAdapter at h
    split at h
    · rcases List.mem_cons.mp h with h1 | h1
      · left; exact h1
      · right; exact h1
    · split at h
      · rcases List.mem_cons.mp h with h1 | h1
        · right; exact h1 ▸ List.mem_cons_self b rest
        · rcases ih h1 with h2 | h2
          · left; exact h2
          · right; exact List.mem_cons_of_mem b h2
      · right; exact h

theorem tapLoop_skip (hwid : String) (d : Device)
    (hd : hwIdOf d = .ok none
          ∨ (∃ s, s ≠ hwid ∧ hwIdOf d = .ok (some s))
          ∨ (hwIdOf d = .ok (some hwid) ∧ buildNetworkAdapter d = none)) :
    ∀ (pre : List Device) (post : List Device) (endE : Nat)
      (acc : List NetworkAdapter),
      tapLoop hwid (pre ++ d :: post) endE acc = tapLoop hwid (pre ++ post) endE acc := by
  intro pre
  induction pre with
  | nil =>
    intro post endE acc
    rcases hd with hd | ⟨s, hs, hd⟩ | ⟨hd, hb⟩
    · simp [tapLoop, hd]
    · simp [tapLoop, hd, hs]
    · simp [tapLoop, hd, hb]
  | cons p pre ih =>
    intro post endE acc
    simp only [List.cons_append, tapLoop]
    cases hp : hwIdOf p with
    | error e => rfl
    | ok o =>
      cases o with
      | none => exact ih post endE acc
      | some hw =>
        by_cases hq : hw = hwid
        · subst hq
          simp only [ne_eq, not_true_eq_false, if_false]
          cases hb : buildNetworkAdapter p with
          | some na => exact ih post endE (insertAdapter na acc)
          | none => exact ih post endE acc
        · simp only [ne_eq, hq, not_false_eq_true, if_true]
          exact ih post endE acc

theorem tapLoop_mem (hwid : String) :
    ∀ (devs : List Device) (endE : Nat) (acc res : List NetworkAdapter),
      tapLoop hwid devs endE acc = .ok res →
      ∀ a ∈ res, a ∈ acc ∨ ∃ d ∈ devs, hwIdOf d = .ok (some hwid) ∧
        buildNetworkAdapter d = some a := by
  intro devs
  induction devs with
  | nil =>
    intro endE acc res h a ha
    left
    unfold tapLoop at h
    split at h
    · cases h; exact ha
    · cases h
  | cons d rest ih =>
    intro endE acc res h a ha
    simp only [tapLoop] at h
    cases hp : hwIdOf d with
    | error e => simp [hp] at h
    | ok o =>
      cases o with
      | none =>
        rw [hp] at h
        rcases ih endE acc res h a ha with h1 | ⟨d', hd', hw', hb'⟩
        · left; exact h1
        · right; exact ⟨d', List.mem_cons_of_mem d hd', hw', hb'⟩
      | some hw =>
        rw [hp] at h
        by_cases hq : hw = hwid
        · subst hq
          simp only [ne_eq, not_true_eq_false, if_false] at h
          cases hb : buildNetworkAdapter d with
          | some na =>
            rw [hb] at h
            rcases ih endE _ res h a ha with h1 | ⟨d', hd', hw', hb'⟩
            · rcases mem_insertAdapter h1 with h2 | h2
              · right
                exact ⟨d, List.mem_cons_self d rest, hp, h2 ▸ hb⟩
              · left; exact h2
            · right; exact ⟨d', List.mem_cons_of_mem d hd', hw', hb'⟩
          | none =>
            rw [hb] at h
            rcases ih endE acc res h a ha with h1 | ⟨d', hd', hw', hb'⟩
            · left; exact h1
            · right; exact ⟨d', List.mem_cons_of_mem d hd', hw', hb'⟩
        · simp only [ne_eq, hq, not_false_eq_true, if_true] at h
          rcases ih endE acc res h a ha with h1 | ⟨d', hd', hw', hb'⟩
          · left; exact h1
          · right; exact ⟨d', List.mem_cons_of_mem d hd', hw', hb'⟩

theorem codeLt_trans :
    ∀ {x y z : List Nat}, codeLt x y = true → codeLt y z = true →
      codeLt x z = true := by
  intro x
  induction x with
  | nil =>
    intro y z hxy hyz
    cases y with
    | nil => simp [codeLt] at hxy
    | cons b bs =>
      cases z with
      | nil => simp [codeLt] at hyz
      | cons c cs => simp [codeLt]
  | cons a as ih =>
    intro y z hxy hyz
    cases y with
    | nil => simp [codeLt] at hxy
    | cons b bs =>
      cases z with
      | nil => simp [codeLt] at hyz
      | cons c cs =>
        simp only [codeLt] at hxy hyz ⊢
        by_cases h1 : a < b
        · rw [if_pos h1] at hxy
          by_cases h2 : b < c
          · rw [if_pos (show a < c by omega)]
          · rw [if_neg h2] at hyz
            by_cases h3 : c < b
            · rw [if_pos h3] at hyz
              exact absurd hyz (by simp)
            · rw [if_pos (show a < c by omega)]
        · rw [if_neg h1] at hxy
          by_cases h2 : b < a
          · rw [if_pos h2] at hxy
            exact absurd hxy (by simp)
          · rw [if_neg h2] at hxy
            by_cases h3 : b < c
            · rw [if_pos (show a < c by omega)]
            · rw [if_neg h3] at hyz
              by_cases h4 : c < b
              · rw [if_pos h4] at hyz
                exact absurd hyz (by simp)
              · rw [if_neg h4] at hyz
                rw [if_neg (show ¬a < c by omega), if_neg (show ¬c < a by omega)]
                exact ih hxy hyz

theorem codeLt_irrefl : ∀ x : List Nat, codeLt x x = false := by
  intro x
  induction x with
  | nil => rfl
  | cons a as ih => simp [codeLt, ih]

theorem guidLt_trans {a b c : NetworkAdapter}
    (h1 : guidLt a b = true) (h2 : guidLt b c = true) : guidLt a c = true :=
  codeLt_trans h1 h2

theorem guidLt_ne {a b : NetworkAdapter} (h : guidLt a b = true) :
    a.guid ≠ b.guid := by
  intro he
  unfold guidLt at h
  rw [he, codeLt_irrefl] at h
  exact absurd h (by simp)

theorem insertAdapter_sorted (a : NetworkAdapter) :
    ∀ {l : List NetworkAdapter},
      l.Pairwise (fun x y => guidLt x y = true) →
      (insertAdapter a l).Pairwise (fun x y => guidLt x y = true) := by
  intro l
  induction l with
  | nil =>
    intro _
    simp [insertAdapter]
  | cons b rest ih =>
    intro h
    rcases List.pairwise_cons.mp h with ⟨hb, hrest⟩
    unfold insertAdapter
    by_cases h1 : guidLt a b = true
    · rw [if_pos h1]
      refine List.Pairwise.cons ?_ h
      intro y hy
      rcases List.mem_cons.mp hy with rfl | hy'
      · exact h1
      · exact guidLt_trans h1 (hb y hy')
    · rw [if_neg h1]
      by_cases h2 : guidLt b a = true
      · rw [if_pos h2]
        refine List.Pairwise.cons ?_ (ih hrest)
        intro y hy
        rcases mem_insertAdapter hy with rfl | hy'
        · exact h2
        · exact hb y hy'
      · rw [if_neg h2]
        exact h

theorem tapLoop_sorted (hwid : String) :
    ∀ (devs : List Device) (endE : Nat) (acc res : List NetworkAdapter),
      acc.Pairwise (fun x y => guidLt x y = true) →
      tapLoop hwid devs endE acc = .ok res →
      res.Pairwise (fun x y => guidLt x y = true) := by
  intro devs
  induction devs with
  | nil =>
    intro endE acc res hacc h
    unfold tapLoop at h
    split at h
    · cases h; exact hacc
    · cases h
  | cons d rest ih =>
    intro endE acc res hacc h
    simp only [tapLoop] at h
    cases hp : hwIdOf d with
    | error e => simp [hp] at h
    | ok o =>
      cases o with
      | none =>
        rw [hp] at h
        exact ih endE acc res hacc h
      | some hw =>
        rw [hp] at h
        by_cases hq : hw = hwid
        · subst hq
          simp only [ne_eq, not_true_eq_false, if_false] at h
          cases hb : buildNetworkAdapter d with
          | some na =>
            rw [hb] at h
            exact ih endE _ res (insertAdapter_sorted na hacc) h
          | none =>
            rw [hb] at h
            exact ih endE acc res hacc h
        · simp only [ne_eq, hq, not_false_eq_true, if_true] at h
          exact ih endE acc res hacc h

/-- C6: filter correctness of the enumerator — every record in a candidate
set returned by `GetTapAdapters` originates from a device whose hardware-id
registry property was present and an exact case-sensitive match for the
requested id (so a device with an absent or mismatched property contributes
no record), and removing such a non-matching device from the device list
leaves the enumeration's outcome unchanged. -/
theorem enumerate_filter_correct (hwid : String) :
    (∀ (dl : DeviceList) (res : List NetworkAdapter),
      GetTapAdapters hwid (.ok dl) = .ok res →
      ∀ a ∈ res, ∃ d ∈ dl.devices, hwIdOf d = .ok (some hwid) ∧
        buildNetworkAdapter d = some a)
    ∧ (∀ (pre post : List Device) (d : Device) (endE : Nat),
        (hwIdOf d = .ok none ∨ (∃ s, s ≠ hwid ∧ hwIdOf d = .ok (some s))) →
        GetTapAdapters hwid (.ok ⟨pre ++ d :: post, endE⟩) =
          GetTapAdapters hwid (.ok ⟨pre ++ post, endE⟩)) := by
  constructor
  · intro dl res h a ha
    rcases tapLoop_mem hwid dl.devices dl.endError [] res h a ha with h1 | h1
    · cases h1
    · exact h1
  · intro pre post d endE hd
    unfold GetTapAdapters
    exact tapLoop_skip hwid d (Or.imp id Or.inl hd) pre post endE []

/-- Witness for C6: a mismatched-hardware-id device and an absent-property
device contribute nothing, and each record of a concrete run originates
from a matching device. -/
theorem enumerate_filter_correct_witness :
    (∀ a ∈ [NetworkAdapter.mk "g1" "d1" "Mullvad" "i1"],
      ∃ d ∈ [okDev "tap0901" "gx" "dx" "ax" "ix",
             okDev "tapmullvad0901" "g1" "d1" "Mullvad" "i1", absentHwDev],
        hwIdOf d = .ok (some "tapmullvad0901") ∧ buildNetworkAdapter d = some a)
    ∧ GetTapAdapters "tapmullvad0901"
        (.ok ⟨[okDev "tap0901" "gx" "dx" "ax" "ix",
               okDev "tapmullvad0901" "g1" "d1" "Mullvad" "i1"],
              ERROR_NO_MORE_ITEMS⟩) =
      GetTapAdapters "tapmullvad0901"
        (.ok ⟨[okDev "tapmullvad0901" "g1" "d1" "Mullvad" "i1"],
              ERROR_NO_MORE_ITEMS⟩) :=
  ⟨(enumerate_filter_correct "tapmullvad0901").1
     ⟨[okDev "tap0901" "gx" "dx" "ax" "ix",
       okDev "tapmullvad0901" "g1" "d1" "Mullvad" "i1", absentHwDev],
      ERROR_NO_MORE_ITEMS⟩
     [⟨"g1", "d1", "Mullvad", "i1"⟩] (by decide),
   (enumerate_filter_correct "tapmullvad0901").2
     [] [okDev "tapmullvad0901" "g1" "d1" "Mullvad" "i1"]
     (okDev "tap0901" "gx" "dx" "ax" "ix") ERROR_NO_MORE_ITEMS
     (Or.inr ⟨"tap0901", by decide, by decide⟩)⟩

/-- C7: for every hardware-id filter, a candidate set returned by
`GetTapAdapters` is strictly ordered by the identifying `guid` string, so
no two of its records share the same identity. -/
theorem enumerate_no_duplicate_identity (hwid : String) (dl : DeviceList)
    (res : List NetworkAdapter)
    (h : GetTapAdapters hwid (.ok dl) = .ok res) :
    res.Pairwise (fun a b => guidLt a b = true)
    ∧ res.Pairwise (fun a b => a.guid ≠ b.guid) := by
  have hs : res.Pairwise (fun a b => guidLt a b = true) :=
    tapLoop_sorted hwid dl.devices dl.endError [] res (by simp) h
  exact ⟨hs, hs.imp fun hxy => guidLt_ne hxy⟩

/-- Witness for C7: a concrete run over two matching devices (enumerated in
descending guid order, plus a duplicate-identity device) yields an ordered,
duplicate-free set. -/
theorem enumerate_no_duplicate_identity_witness :
    GetTapAdapters "tapmullvad0901"
      (.ok ⟨[okDev "tapmullvad0901" "g2" "d2" "Mullvad-1" "i2",
             okDev "tapmullvad0901" "g1" "d1" "Mullvad" "i1",
             okDev "tapmullvad0901" "g2" "dup" "dup" "dup"],
            ERROR_NO_MORE_ITEMS⟩) =
      .ok [⟨"g1", "d1", "Mullvad", "i1"⟩, ⟨"g2", "d2", "Mullvad-1", "i2"⟩]
    ∧ List.Pairwise (fun a b => a.guid ≠ b.guid)
        [NetworkAdapter.mk "g1" "d1" "Mullvad" "i1",
         NetworkAdapter.mk "g2" "d2" "Mullvad-1" "i2"] :=
  ⟨by decide,
   (enumerate_no_duplicate_identity "tapmullvad0901"
     ⟨[okDev "tapmullvad0901" "g2" "d2" "Mullvad-1" "i2",
       okDev "tapmullvad0901" "g1" "d1" "Mullvad" "i1",
       okDev "tapmullvad0901" "g2" "dup" "dup" "dup"],
      ERROR_NO_MORE_ITEMS⟩
     [⟨"g1", "d1", "Mullvad", "i1"⟩, ⟨"g2", "d2", "Mullvad-1", "i2"⟩]
     (by decide)).2⟩

/-- C8: per-device failure isolation — dropping a matching device whose
record construction fails leaves the enumeration of the remaining devices
unchanged (the device is excluded, enumeration continues to completion),
and a record is only ever constructed when all four sub-queries succeeded,
its fields being exactly their results. -/
theorem enumerate_failure_isolation (hwid : String) :
    (∀ (pre post : List Device) (d : Device) (endE : Nat),
      hwIdOf d = .ok (some hwid) → buildNetworkAdapter d = none →
      GetTapAdapters hwid (.ok ⟨pre ++ d :: post, endE⟩) =
        GetTapAdapters hwid (.ok ⟨pre ++ post, endE⟩))
    ∧ (∀ (d : Device) (a : NetworkAdapter), buildNetworkAdapter d = some a →
        d.netCfg = .ok a.guid ∧ d.guidParseOk = true ∧
        d.driverDesc = .ok a.name ∧ d.connectionName = .ok a.alias_ ∧
        d.devInstanceId = .ok a.deviceInstanceId) := by
  constructor
  · intro pre post d endE hmatch hbuild
    unfold GetTapAdapters
    exact tapLoop_skip hwid d (Or.inr (Or.inr ⟨hmatch, hbuild⟩)) pre post endE []
  · intro d a h
    unfold buildNetworkAdapter at h
    cases hc : d.netCfg with
    | error e => simp [hc] at h
    | ok guid =>
      simp only [hc] at h
      by_cases hg : d.guidParseOk = false
      · simp [hg] at h
      · simp only [if_neg hg] at h
        have hg' : d.guidParseOk = true := by
          cases hgp : d.guidParseOk
          · exact absurd hgp hg
          · rfl
        cases hd : d.driverDesc with
        | error e => simp [hd] at h
        | ok name =>
          cases hcn : d.connectionName with
          | error e => simp [hd, hcn] at h
          | ok al =>
            cases hdi : d.devInstanceId with
            | error e => simp [hd, hcn, hdi] at h
            | ok inst =>
              simp only [hd, hcn, hdi] at h
              injection h with h2
              subst h2
              exact ⟨rfl, hg', rfl, rfl, rfl⟩

/-- Witness for C8: a matching device with a failing `NetCfgInstanceId`
read is skipped while the later good device still enumerates, and the four
fields of a concretely built record equal the sub-query results. -/
theorem enumerate_failure_isolation_witness :
    GetTapAdapters "tapmullvad0901"
      (.ok ⟨[badBuildDev, okDev "tapmullvad0901" "g1" "d1" "Mullvad" "i1"],
            ERROR_NO_MORE_ITEMS⟩) =
      GetTapAdapters "tapmullvad0901"
        (.ok ⟨[okDev "tapmullvad0901" "g1" "d1" "Mullvad" "i1"],
              ERROR_NO_MORE_ITEMS⟩)
    ∧ ((okDev "tapmullvad0901" "g1" "d1" "Mullvad" "i1").netCfg = .ok "g1"
       ∧ (okDev "tapmullvad0901" "g1" "d1" "Mullvad" "i1").guidParseOk = true
       ∧ (okDev "tapmullvad0901" "g1" "d1" "Mullvad" "i1").driverDesc = .ok "d1"
       ∧ (okDev "tapmullvad0901" "g1" "d1" "Mullvad" "i1").connectionName = .ok "Mullvad"
       ∧ (okDev "tapmullvad0901" "g1" "d1" "Mullvad" "i1").devInstanceId = .ok "i1") :=
  ⟨(enumerate_failure_isolation "tapmullvad0901").1
     [] [okDev "tapmullvad0901" "g1" "d1" "Mullvad" "i1"] badBuildDev
     ERROR_NO_MORE_ITEMS (by decide) (by decide),
   (enumerate_failure_isolation "tapmullvad0901").2
     (okDev "tapmullvad0901" "g1" "d1" "Mullvad" "i1")
     ⟨"g1", "d1", "Mullvad", "i1"⟩ (by decide)⟩

theorem findSuffixedFrom_eq_firstAliasMatch (l : List NetworkAdapter) :
    ∀ (fuel i : Nat),
      findSuffixedFrom l i fuel = firstAliasMatch l (suffixAliases i fuel) := by
  intro fuel
  induction fuel with
  | zero => intro i; rfl
  | succ n ih =>
    intro i
    cases h : findByAlias l ("Mullvad-" ++ toString i) with
    | some a => simp [findSuffixedFrom, suffixAliases, firstAliasMatch, h]
    | none => simp [findSuffixedFrom, suffixAliases, firstAliasMatch, h, ih]

theorem probeAliases_eq : probeAliases = "Mullvad" :: suffixAliases 0 10 := by
  decide

/-- C3: the matcher agrees everywhere with the spec's policy — probe, in
order, the alias `Mullvad` and then `Mullvad-0` through `Mullvad-9`, each
case-insensitively, returning the first hit and no match when all 11 miss.
In particular the empty candidate set yields no match, the exact base name
takes priority over every suffixed form, and the lowest-indexed suffix
wins. -/
theorem findProductAdapter_matches_spec (tapAdapters : List NetworkAdapter) :
    FindMullvadAdapter tapAdapters = spec_findProductAdapter tapAdapters := by
  unfold FindMullvadAdapter spec_findProductAdapter
  rw [probeAliases_eq]
  cases tapAdapters with
  | nil => rfl
  | cons a rest =>
    show (match findByAlias (a :: rest) "Mullvad" with
          | some m => some m
          | none => findSuffixedFrom (a :: rest) 0 10) =
        firstAliasMatch (a :: rest) ("Mullvad" :: suffixAliases 0 10)
    cases h : findByAlias (a :: rest) "Mullvad" with
    | some m => simp [firstAliasMatch, h]
    | none => simp [firstAliasMatch, h, findSuffixedFrom_eq_firstAliasMatch]

theorem deleteLoop_clean (mg : String) :
    ∀ (devs : List Device) (n : Nat) (removed : List Device),
      (∀ d ∈ devs, cleanForDeletion mg d = true) →
      deleteLoop mg devs ERROR_NO_MORE_ITEMS n removed =
        (.ok (n + (devs.filter (isRemainingLegacy mg)).length),
         removed ++ devs.filter (isTargetLegacy mg)) := by
  intro devs
  induction devs with
  | nil =>
    intro n removed _
    simp [deleteLoop]
  | cons d rest ih =>
    intro n removed h
    have hd := h d (List.mem_cons_self d rest)
    have hrest : ∀ x ∈ rest, cleanForDeletion mg x = true :=
      fun x hx => h x (List.mem_cons_of_mem d hx)
    cases hp : hwIdOf d with
    | error e =>
      unfold cleanForDeletion at hd
      rw [hp] at hd
      cases hd
    | ok hw =>
      by_cases hm : hw = some DEPRECATED_TAP_HARDWARE_ID
      · subst hm
        cases hc : d.netCfg with
        | error e =>
          unfold cleanForDeletion at hd
          rw [hp, hc] at hd
          simp at hd
        | ok g =>
          by_cases hg : g = mg
          · have hrm : d.removeOk = true := by
              unfold cleanForDeletion at hd
              rw [hp, hc] at hd
              simpa [hg] using hd
            have hR : isRemainingLegacy mg d = false := by
              simp [isRemainingLegacy, hp, hc, hg]
            have hT : isTargetLegacy mg d = true := by
              simp [isTargetLegacy, hp, hc, hg]
            have step : deleteLoop mg (d :: rest) ERROR_NO_MORE_ITEMS n removed =
                deleteLoop mg rest ERROR_NO_MORE_ITEMS n (removed ++ [d]) := by
              simp [deleteLoop, hp, hc, hg, hrm]
            rw [step, ih n (removed ++ [d]) hrest,
              List.filter_cons, List.filter_cons]
            simp [hR, hT]
          · have hR : isRemainingLegacy mg d = true := by
              simp [isRemainingLegacy, hp, hc, hg]
            have hT : isTargetLegacy mg d = false := by
              simp [isTargetLegacy, hp, hc, hg]
            have step : deleteLoop mg (d :: rest) ERROR_NO_MORE_ITEMS n removed =
                deleteLoop mg rest ERROR_NO_MORE_ITEMS (n + 1) removed := by
              simp [deleteLoop, hp, hc, hg]
            rw [step, ih (n + 1) removed hrest,
              List.filter_cons, List.filter_cons]
            simp [hR, hT]
            omega
      · have hR : isRemainingLegacy mg d = false := by
          simp [isRemainingLegacy, hp, hm]
        have hT : isTargetLegacy mg d = false := by
          simp [isTargetLegacy, hp, hm]
        have step : deleteLoop mg (d :: rest) ERROR_NO_MORE_ITEMS n removed =
            deleteLoop mg rest ERROR_NO_MORE_ITEMS n removed := by
          simp [deleteLoop, hp, hm]
        rw [step, ih n removed hrest, List.filter_cons, List.filter_cons]
        simp [hR, hT]

theorem deleteLoop_fatal (mg : String) (d : Device)
    (ht : isTargetLegacy mg d = true) (hrm : d.removeOk = false) :
    ∀ (pre post : List Device) (endE n : Nat) (removed : List Device),
      (∀ x ∈ pre, cleanForDeletion mg x = true) →
      (deleteLoop mg (pre ++ d :: post) endE n removed).1 =
        .error (.removalError d.removeErr) := by
  intro pre
  induction pre with
  | nil =>
    intro post endE n removed _
    unfold isTargetLegacy at ht
    rw [Bool.and_eq_true] at ht
    obtain ⟨ht1, ht2⟩ := ht
    have ht1' : hwIdOf d = .ok (some DEPRECATED_TAP_HARDWARE_ID) :=
      eq_of_beq ht1
    cases hc : d.netCfg with
    | error e => rw [hc] at ht2; cases ht2
    | ok g =>
      rw [hc] at ht2
      have hg : g = mg := eq_of_beq ht2
      simp [deleteLoop, ht1', hc, hg, hrm]
  | cons p pre ih =>
    intro post endE n removed hclean
    have hp := hclean p (List.mem_cons_self p pre)
    have hpre : ∀ x ∈ pre, cleanForDeletion mg x = true :=
      fun x hx => hclean x (List.mem_cons_of_mem p hx)
    cases hq : hwIdOf p with
    | error e =>
      unfold cleanForDeletion at hp
      rw [hq] at hp
      cases hp
    | ok hw =>
      by_cases hm : hw = some DEPRECATED_TAP_HARDWARE_ID
      · subst hm
        cases hc : p.netCfg with
        | error e =>
          unfold cleanForDeletion at hp
          rw [hq, hc] at hp
          simp at hp
        | ok g =>
          by_cases hg : g = mg
          · have hrm2 : p.removeOk = true := by
              unfold cleanForDeletion at hp
              rw [hq, hc] at hp
              simpa [hg] using hp
            have step : deleteLoop mg ((p :: pre) ++ d :: post) endE n removed =
                deleteLoop mg (pre ++ d :: post) endE n (removed ++ [p]) := by
              simp [deleteLoop, hq, hc, hg, hrm2]
            rw [step]
            exact ih post endE n (removed ++ [p]) hpre
          · have step : deleteLoop mg ((p :: pre) ++ d :: post) endE n removed =
                deleteLoop mg (pre ++ d :: post) endE (n + 1) removed := by
              simp [deleteLoop, hq, hc, hg]
            rw [step]
            exact ih post endE (n + 1) removed hpre
      · have step : deleteLoop mg ((p :: pre) ++ d :: post) endE n removed =
            deleteLoop mg (pre ++ d :: post) endE n removed := by
          simp [deleteLoop, hq, hm]
        rw [step]
        exact ih post endE n removed hpre

/-- C4: when the matcher finds the legacy product adapter, the removal loop
removes exactly the legacy-hardware-id devices whose configuration identity
equals the matched adapter's guid, counts every other legacy-hardware-id
device as remaining without removing it, and the call reports
`SOME_REMAINING_TAP_ADAPTERS` exactly when at least one such non-matching
device was counted; a failing removal of a matching device aborts the call
with the removal error. -/
theorem deleteOldAdapter_removal_behaviour (enum1 : Except Nat DeviceList)
    (cands : List NetworkAdapter) (m : NetworkAdapter)
    (h1 : GetTapAdapters DEPRECATED_TAP_HARDWARE_ID enum1 = .ok cands)
    (h2 : FindMullvadAdapter cands = some m) :
    (∀ devs : List Device,
      (∀ d ∈ devs, cleanForDeletion m.guid d = true) →
      DeleteOldMullvadAdapter enum1 (.ok ⟨devs, ERROR_NO_MORE_ITEMS⟩) =
        (.ok (if 0 < (devs.filter (isRemainingLegacy m.guid)).length then
                .SOME_REMAINING_TAP_ADAPTERS
              else
                .NO_REMAINING_TAP_ADAPTERS),
         devs.filter (isTargetLegacy m.guid)))
    ∧ (∀ (pre : List Device) (d : Device) (post : List Device) (endE : Nat),
        (∀ x ∈ pre, cleanForDeletion m.guid x = true) →
        isTargetLegacy m.guid d = true → d.removeOk = false →
        (DeleteOldMullvadAdapter enum1 (.ok ⟨pre ++ d :: post, endE⟩)).1 =
          .error (.removalError d.removeErr)) := by
  constructor
  · intro devs hclean
    unfold DeleteOldMullvadAdapter
    simp only [h1, h2]
    rw [deleteLoop_clean m.guid devs 0 [] hclean]
    simp
  · intro pre d post endE hclean ht hrm
    unfold DeleteOldMullvadAdapter
    simp only [h1, h2]
    have hf := deleteLoop_fatal m.guid d ht hrm pre post endE 0 [] hclean
    rcases hdl : deleteLoop m.guid (pre ++ d :: post) endE 0 [] with ⟨r, rem⟩
    rw [hdl] at hf
    simp only at hf
    subst hf
    simp

/-- Witness for C4: one matched legacy adapter plus one unrelated
legacy-hardware-id device removes only the match and reports some
remaining; the match alone reports none remaining; a failing removal of
the match surfaces the removal error. -/
theorem deleteOldAdapter_removal_behaviour_witness :
    DeleteOldMullvadAdapter
      (.ok ⟨[okDev "tap0901" "gl" "dsc" "Mullvad" "i1"], ERROR_NO_MORE_ITEMS⟩)
      (.ok ⟨[okDev "tap0901" "gl" "dsc" "Mullvad" "i1",
             okDev "tap0901" "gx" "dsc" "Ethernet" "i2"], ERROR_NO_MORE_ITEMS⟩)
      = (.ok .SOME_REMAINING_TAP_ADAPTERS, [okDev "tap0901" "gl" "dsc" "Mullvad" "i1"])
    ∧ DeleteOldMullvadAdapter
        (.ok ⟨[okDev "tap0901" "gl" "dsc" "Mullvad" "i1"], ERROR_NO_MORE_ITEMS⟩)
        (.ok ⟨[okDev "tap0901" "gl" "dsc" "Mullvad" "i1"], ERROR_NO_MORE_ITEMS⟩)
      = (.ok .NO_REMAINING_TAP_ADAPTERS, [okDev "tap0901" "gl" "dsc" "Mullvad" "i1"])
    ∧ (DeleteOldMullvadAdapter
        (.ok ⟨[okDev "tap0901" "gl" "dsc" "Mullvad" "i1"], ERROR_NO_MORE_ITEMS⟩)
        (.ok ⟨[badRemoveDev], ERROR_NO_MORE_ITEMS⟩)).1
      = .error (.removalError 5) := by
  have h := deleteOldAdapter_removal_behaviour
    (.ok ⟨[okDev "tap0901" "gl" "dsc" "Mullvad" "i1"], ERROR_NO_MORE_ITEMS⟩)
    [⟨"gl", "dsc", "Mullvad", "i1"⟩] ⟨"gl", "dsc", "Mullvad", "i1"⟩
    (by decide) (by decide)
  refine ⟨?_, ?_, ?_⟩
  · rw [h.1 [okDev "tap0901" "gl" "dsc" "Mullvad" "i1",
             okDev "tap0901" "gx" "dsc" "Ethernet" "i2"] (by decide)]
    decide
  · rw [h.1 [okDev "tap0901" "gl" "dsc" "Mullvad" "i1"] (by decide)]
    decide
  · rw [show [badRemoveDev] = [] ++ badRemoveDev :: [] from rfl] at *
    exact h.2 [] badRemoveDev [] ERROR_NO_MORE_ITEMS (by simp) (by decide) (by decide)
